import Mathlib

/-!
Verification of the content-to-question generation pipeline of the
visitor-classifier service (src/app.py).

The pipeline logic (topic pooling, fallback classification, template-based
question synthesis, validity filtering, fallback-question insertion) is
embedded as executable Lean functions translated from src/app.py.
External collaborators are modelled as parameters:
  * the NLP extraction step (the spacy library) produces the entity list and
    the sentence list; both are passed in as inputs;
  * the global randomness source (the random library) is passed in as an
    oracle record `Rng`; random.randint lo hi (inclusive on both ends) is
    modelled as lo + n % (hi + 1 - lo) on an oracle draw n, random.choice
    over the 7-template catalog as an oracle index reduced mod 7, and
    random.shuffle as the Fisher-Yates procedure driven by oracle draws
    reduced mod (i + 1), which is exactly the shape of the library routines.
Machine integers do not overflow here (ids are small), so Nat is used.
-/

/-- A generated question record: the keys questionId, question, options of
the dicts built in generate_questions (src/app.py). -/
structure Question where
  questionId : Nat
  question : String
  options : List String
deriving DecidableEq, Repr

/-- Oracle record standing for the global randomness source: independent
streams of raw draws for shuffling, template choice and id generation. -/
structure Rng where
  shuffleSeed : Nat → Nat
  choiceSeed : Nat → Nat
  idSeed : Nat → Nat

/-- Occurrence of a pattern as a contiguous subsequence: the semantics of the
Python substring test `pat in s`, on character lists. -/
def occursIn (pat : List Char) : List Char → Bool
  | [] => pat.isEmpty
  | c :: cs => pat.isPrefixOf (c :: cs) || occursIn pat cs

/-- Python `pat in s` on strings (substring containment). -/
def pyIn (pat s : String) : Bool :=
  occursIn pat.toList s.toList

/-- Python `s.endswith(suf)`. -/
def pyEndsWith (s suf : String) : Bool :=
  suf.toList.isSuffixOf s.toList

/-- Python `s.lower()`: characterwise lowering (the inputs of interest are
ASCII, where the two agree). -/
def pyLower (s : String) : String :=
  String.mk (s.toList.map Char.toLower)

/-- Python `random.randint(lo, hi)` (both ends inclusive) on an oracle draw
n: every value of [lo, hi] and only those are reachable. -/
def pyRandint (lo hi n : Nat) : Nat :=
  lo + n % (hi + 1 - lo)

/-- One swap x[i], x[j] = x[j], x[i] on a list. -/
def listSwap {α : Type} (l : List α) (i j : Nat) : List α :=
  match l[i]?, l[j]? with
  | some x, some y => (l.set i y).set j x
  | _, _ => l

/-- Descending loop of the Fisher-Yates shuffle: at index i + 1 swap with a
position j = draw % (i + 2), then continue at i. -/
def fyAux {α : Type} (seed : Nat → Nat) (l : List α) : Nat → List α
  | 0 => l
  | i + 1 => fyAux seed (listSwap l (i + 1) (seed (i + 1) % (i + 2))) i

/-- Python `random.shuffle(x)`: Fisher-Yates from index len - 1 down to 1,
driven by the oracle draws. -/
def fisherYates {α : Type} (seed : Nat → Nat) (l : List α) : List α :=
  fyAux seed l (l.length - 1)

/-- generate_dynamic_options from src/app.py: the option set for each
semantic question type; the challenges type is keyed on the topic text. -/
def generate_dynamic_options (topic : String) (question_type : String) : List String :=
  if question_type = "opinion" then
    ["Positive", "Negative", "Neutral"]
  else if question_type = "importance" then
    ["Not at all", "Somewhat", "Very important"]
  else if question_type = "fit" then
    ["Technology", "Science", "Business", "Other"]
  else if question_type = "interest" then
    ["1", "2", "3", "4", "5"]
  else if question_type = "agreement" then
    ["Agree", "Disagree", "Not Sure"]
  else if question_type = "challenges" then
    if pyIn "technology" (pyLower topic) then
      ["High cost", "Implementation difficulties", "Resistance to change"]
    else if pyIn "event" (pyLower topic) then
      ["Unexpected consequences", "Lack of preparation", "Public backlash"]
    else if pyIn "product" (pyLower topic) then
      ["Supply chain issues", "Quality control", "Market competition"]
    else
      ["Time constraints", "Resource limitations", "Knowledge gaps"]
  else
    ["Agree", "Disagree", "Not Sure"]

/-- categorize_fallback from src/app.py: two generic topic phrases chosen by
case-insensitive keyword containment on the content. -/
def categorize_fallback (content : String) : List String :=
  if pyIn "event" (pyLower content) then
    ["key facts about this event", "impacts of this event on the industry"]
  else if pyIn "product" (pyLower content) then
    ["product benefits", "product challenges"]
  else if pyIn "technology" (pyLower content) then
    ["future trends in technology", "challenges in adopting new technologies"]
  else
    ["general knowledge", "specific details"]

/-- filter_questions from src/app.py: the Validator predicate on a question
record. -/
def filter_questions (question_data : Question) : Bool :=
  if (question_data.question == "") || question_data.options.isEmpty then
    false
  else if question_data.options.length < 2 then
    false
  else if pyEndsWith question_data.question "." || !(pyEndsWith question_data.question "?") then
    false
  else if pyIn "Terms and Conditions" question_data.question || pyIn "Privacy Policy" question_data.question then
    false
  else if pyIn "CA Notice" question_data.question || pyIn "see our" question_data.question then
    false
  else
    true

/-- The single-quote character, used by the f-strings of the templates. -/
def apos : String :=
  String.singleton (Char.ofNat 39)

/-- The topic interpolated between single quotes, as every template f-string
does. -/
def quoted (t : String) : String :=
  apos ++ t ++ apos

/-- The question_templates catalog of src/app.py: template number n (the
catalog has 7 entries) applied to a drawn id and a topic. -/
def templateAt (n : Nat) (qid : Nat) (t : String) : Question :=
  match n with
  | 0 => ⟨qid, "What is your opinion on " ++ quoted t ++ "?",
          generate_dynamic_options t "opinion"⟩
  | 1 => ⟨qid, "Would you like to learn more about " ++ quoted t ++ "?",
          ["Yes", "No"]⟩
  | 2 => ⟨qid, "How important is " ++ quoted t ++ " to you?",
          generate_dynamic_options t "importance"⟩
  | 3 => ⟨qid, "Where do you think " ++ quoted t ++ " fits best?",
          generate_dynamic_options t "fit"⟩
  | 4 => ⟨qid, "On a scale of 1-5, how would you rate your interest in " ++ quoted t ++ "?",
          generate_dynamic_options t "interest"⟩
  | 5 => ⟨qid, "Do you agree with the statement: " ++ quoted t ++ " is revolutionary?",
          generate_dynamic_options t "agreement"⟩
  | _ => ⟨qid, "What challenges might you foresee with " ++ quoted t ++ "?",
          generate_dynamic_options t "challenges"⟩

/-- One iteration of the synthesis loop of generate_questions: a uniformly
chosen template of the catalog applied to a fresh id draw and the topic. -/
def synthOne (rng : Rng) (k : Nat) (t : String) : Question :=
  templateAt (rng.choiceSeed k % 7) (pyRandint 1000 9999 (rng.idSeed k)) t

/-- The for-loop of generate_questions over the shuffled topics: synthesize
one question per topic, keep it only when filter_questions accepts it. -/
def synthLoop (rng : Rng) : Nat → List String → List Question
  | _, [] => []
  | k, t :: ts =>
    let q := synthOne rng k t
    if filter_questions q then q :: synthLoop rng (k + 1) ts
    else synthLoop rng (k + 1) ts

/-- The hardcoded fallback question appended by generate_questions when no
question survived filtering. -/
def fallback_question (qid : Nat) : Question :=
  ⟨qid, "What is your overall impression of this content?",
   ["Interesting", "Boring", "Confusing"]⟩

/-- The topic pool of generate_questions before shuffling: the deduplicated
union of the extracted entities and the first 10 qualifying sentences, with
the two fallback phrases appended when fewer than 3 topics were found.
list(set(...)) returns the distinct elements in an unspecified order; it is
modelled by dedup, which is adequate because the pool is shuffled before
use and no claim depends on the pre-shuffle order of the deduplicated part. -/
def topicsPool (entities sentences : List String) (content : String) : List String :=
  let topics := (entities ++ sentences.take 10).dedup
  if topics.length < 3 then topics ++ categorize_fallback content else topics

/-- The url_based_questions list of generate_questions: the filtered
synthesis over the shuffled topic pool when from_url is true, the empty
list otherwise. -/
def accepted_questions (rng : Rng) (entities sentences : List String)
    (content : String) (from_url : Bool) : List Question :=
  if from_url then
    synthLoop rng 0 (fisherYates rng.shuffleSeed (topicsPool entities sentences content))
  else
    []

/-- generate_questions from src/app.py, with the NLP extraction results
(entities and sentences) and the randomness oracle passed in explicitly. -/
def generate_questions (rng : Rng) (entities sentences : List String)
    (content : String) (from_url : Bool) : List Question :=
  if (accepted_questions rng entities sentences content from_url).isEmpty then
    [fallback_question (pyRandint 1000 9999 (rng.idSeed (topicsPool entities sentences content).length))]
  else
    accepted_questions rng entities sentences content from_url

/-- Modelled from the specification text of the Validator (section 4.3):
is_valid rejects exactly when one of the listed conditions holds. Used to
compare the specified predicate with filter_questions. -/
def is_valid_spec (q : Question) : Prop :=
  ¬(q.question = "" ∨ q.options = [] ∨
    q.options.length < 2 ∨
    pyEndsWith q.question "." = true ∨ pyEndsWith q.question "?" = false ∨
    pyIn "Terms and Conditions" q.question = true ∨
    pyIn "Privacy Policy" q.question = true ∨
    pyIn "CA Notice" q.question = true ∨
    pyIn "see our" q.question = true)

/-- All-zero randomness oracle, used for concrete evaluations. -/
def rng0 : Rng :=
  ⟨fun _ => 0, fun _ => 0, fun _ => 0⟩

/-- Oracle whose template draws always select catalog entry 4 (the
interest template). -/
def rngInterest : Rng :=
  ⟨fun _ => 0, fun _ => 4, fun _ => 0⟩

/-- Oracle whose id draws are all 8999, so that randint(1000, 9999)
returns its inclusive upper end 9999. -/
def rngTopId : Rng :=
  ⟨fun _ => 0, fun _ => 0, fun _ => 8999⟩

theorem length_listSwap {α : Type} (l : List α) (i j : Nat) :
    (listSwap l i j).length = l.length := by
  unfold listSwap
  split <;> simp [List.length_set]

theorem mem_of_mem_listSwap {α : Type} {a : α} {l : List α} {i j : Nat}
    (h : a ∈ listSwap l i j) : a ∈ l := by
  unfold listSwap at h
  split at h
  case _ x y hx hy =>
    rcases List.mem_or_eq_of_mem_set h with h1 | h1
    · rcases List.mem_or_eq_of_mem_set h1 with h2 | h2
      · exact h2
      · subst h2
        exact List.getElem?_mem hy
    · subst h1
      exact List.getElem?_mem hx
  case _ => exact h

theorem length_fyAux {α : Type} (seed : Nat → Nat) (l : List α) (n : Nat) :
    (fyAux seed l n).length = l.length := by
  induction n generalizing l with
  | zero => rfl
  | succ i ih => simp [fyAux, ih, length_listSwap]

theorem mem_of_mem_fyAux {α : Type} {seed : Nat → Nat} {a : α} {l : List α} {n : Nat}
    (h : a ∈ fyAux seed l n) : a ∈ l := by
  induction n generalizing l with
  | zero => exact h
  | succ i ih => exact mem_of_mem_listSwap (ih h)

theorem length_fisherYates {α : Type} (seed : Nat → Nat) (l : List α) :
    (fisherYates seed l).length = l.length :=
  length_fyAux seed l (l.length - 1)

theorem mem_of_mem_fisherYates {α : Type} {seed : Nat → Nat} {a : α} {l : List α}
    (h : a ∈ fisherYates seed l) : a ∈ l :=
  mem_of_mem_fyAux h

theorem templateAt_qid (n qid : Nat) (t : String) :
    (templateAt n qid t).questionId = qid := by
  match n with
  | 0 => rfl
  | 1 => rfl
  | 2 => rfl
  | 3 => rfl
  | 4 => rfl
  | 5 => rfl
  | m + 6 => rfl

theorem pyRandint_bounds (n : Nat) :
    1000 ≤ pyRandint 1000 9999 n ∧ pyRandint 1000 9999 n ≤ 9999 := by
  unfold pyRandint
  have h : n % (9999 + 1 - 1000) < 9000 := Nat.mod_lt _ (by omega)
  omega

theorem filter_true_of_mem_synthLoop {rng : Rng} {q : Question} {ts : List String} {k : Nat}
    (h : q ∈ synthLoop rng k ts) : filter_questions q = true := by
  induction ts generalizing k with
  | nil => simp [synthLoop] at h
  | cons t ts ih =>
    simp only [synthLoop] at h
    split at h
    case _ hf =>
      rcases List.mem_cons.mp h with h1 | h1
      · subst h1; exact hf
      · exact ih h1
    case _ => exact ih h

theorem exists_of_mem_synthLoop {rng : Rng} {q : Question} {ts : List String} {k : Nat}
    (h : q ∈ synthLoop rng k ts) : ∃ j t, t ∈ ts ∧ q = synthOne rng j t := by
  induction ts generalizing k with
  | nil => simp [synthLoop] at h
  | cons t ts ih =>
    simp only [synthLoop] at h
    split at h
    case _ hf =>
      rcases List.mem_cons.mp h with h1 | h1
      · exact ⟨k, t, List.mem_cons_self t ts, h1⟩
      · obtain ⟨j, u, hu, hq⟩ := ih h1
        exact ⟨j, u, List.mem_cons_of_mem t hu, hq⟩
    case _ =>
      obtain ⟨j, u, hu, hq⟩ := ih h
      exact ⟨j, u, List.mem_cons_of_mem t hu, hq⟩

theorem length_synthLoop_of_all_pass {rng : Rng} {ts : List String}
    (hall : ∀ t ∈ ts, ∀ j, filter_questions (synthOne rng j t) = true) :
    ∀ k, (synthLoop rng k ts).length = ts.length := by
  induction ts with
  | nil => intro k; rfl
  | cons t ts ih =>
    intro k
    have ht := hall t (List.mem_cons_self t ts) k
    simp only [synthLoop, ht, if_true, List.length_cons]
    exact congrArg (· + 1) (ih (fun u hu j => hall u (List.mem_cons_of_mem t hu) j) (k + 1))

theorem generate_dynamic_options_length (topic question_type : String) :
    2 ≤ (generate_dynamic_options topic question_type).length ∧
      (generate_dynamic_options topic question_type).length ≤ 5 := by
  unfold generate_dynamic_options
  split
  · simp
  · split
    · simp
    · split
      · simp
      · split
        · simp
        · split
          · simp
          · split
            · split
              · simp
              · split
                · simp
                · split <;> simp
            · simp

theorem templateAt_options_length (n qid : Nat) (t : String) :
    2 ≤ (templateAt n qid t).options.length ∧ (templateAt n qid t).options.length ≤ 5 := by
  match n with
  | 0 => exact generate_dynamic_options_length t "opinion"
  | 1 => simp [templateAt]
  | 2 => exact generate_dynamic_options_length t "importance"
  | 3 => exact generate_dynamic_options_length t "fit"
  | 4 => exact generate_dynamic_options_length t "interest"
  | 5 => exact generate_dynamic_options_length t "agreement"
  | m + 6 => exact generate_dynamic_options_length t "challenges"

theorem mem_generate_questions {rng : Rng} {entities sentences : List String}
    {content : String} {from_url : Bool} {q : Question}
    (h : q ∈ generate_questions rng entities sentences content from_url) :
    (∃ j t, q = synthOne rng j t) ∨
      q = fallback_question (pyRandint 1000 9999 (rng.idSeed (topicsPool entities sentences content).length)) := by
  unfold generate_questions at h
  split at h
  · right
    exact List.mem_singleton.mp h
  · unfold accepted_questions at h
    split at h
    · obtain ⟨j, t, _, hq⟩ := exists_of_mem_synthLoop h
      exact Or.inl ⟨j, t, hq⟩
    · simp at h

theorem single_isPrefixOf_eq {a b : Char} {l : List Char}
    (ha : [a].isPrefixOf l = true) (hb : [b].isPrefixOf l = true) : a = b := by
  cases l with
  | nil => simp [List.isPrefixOf] at ha
  | cons c cs =>
    simp [List.isPrefixOf] at ha hb
    exact ha.trans hb.symm

theorem endsWith_qmark_ne_empty {s : String} (h : pyEndsWith s "?" = true) :
    (s == "") = false := by
  cases hs : s.toList.reverse with
  | nil =>
    unfold pyEndsWith List.isSuffixOf at h
    rw [show ("?" : String).toList.reverse = ['?'] from rfl, hs] at h
    simp [List.isPrefixOf] at h
  | cons c cs =>
    have hne : s.toList ≠ [] := by
      intro hn
      rw [hn] at hs
      simp at hs
    have hsne : s ≠ "" := fun hn => hne (by rw [hn]; rfl)
    exact beq_false_of_ne hsne

theorem endsWith_qmark_not_dot {s : String} (h : pyEndsWith s "?" = true) :
    pyEndsWith s "." = false := by
  cases hd : pyEndsWith s "." with
  | false => rfl
  | true =>
    have h1 : ['?'].isPrefixOf s.toList.reverse = true := h
    have h2 : ['.'].isPrefixOf s.toList.reverse = true := hd
    have := single_isPrefixOf_eq h1 h2
    simp at this

/-- C1 is refuted at a concrete input: the interest category yields 5
options, and a run of generate_questions whose template draws select the
interest template returns questions with 5 options, violating the claimed
upper bound of 4. -/
theorem C1_counterexample :
    (generate_dynamic_options "general knowledge" "interest").length = 5 ∧
    (generate_questions rngInterest [] [] "" true).all (fun q => q.options.length ≤ 4) = false := by
  decide

/-- C1 (amended): for every topic and category the option set produced by
generate_dynamic_options is an ordered sequence of at least 2 and at most 5
strings, and every Question in the set returned by generate_questions has
between 2 and 5 options. -/
theorem C1_options_length_two_to_five (topic question_type : String) (rng : Rng)
    (entities sentences : List String) (content : String) (from_url : Bool) :
    (2 ≤ (generate_dynamic_options topic question_type).length ∧
      (generate_dynamic_options topic question_type).length ≤ 5) ∧
    (generate_questions rng entities sentences content from_url).all
      (fun q => 2 ≤ q.options.length && q.options.length ≤ 5) = true := by
  refine ⟨generate_dynamic_options_length topic question_type, ?_⟩
  simp only [List.all_eq_true]
  intro q hq
  rcases mem_generate_questions hq with ⟨j, t, hq'⟩ | hq'
  · subst hq'
    have := templateAt_options_length (rng.choiceSeed j % 7) (pyRandint 1000 9999 (rng.idSeed j)) t
    simp only [synthOne, Bool.and_eq_true, decide_eq_true_iff]
    omega
  · subst hq'
    rfl

/-- C2: every Question in the sequence returned by generate_questions
satisfies the Validator predicate filter_questions, for every extraction
result and randomness, including the hardcoded fallback Question that is
appended without being passed through the Validator. -/
theorem C2_returned_questions_pass_validator (rng : Rng) (entities sentences : List String)
    (content : String) (from_url : Bool) (q : Question)
    (hq : q ∈ generate_questions rng entities sentences content from_url) :
    filter_questions q = true := by
  unfold generate_questions at hq
  split at hq
  · rw [List.mem_singleton.mp hq]
    rfl
  · unfold accepted_questions at hq
    split at hq
    · exact filter_true_of_mem_synthLoop hq
    · simp at hq

/-- Witness for C2: the fallback question with id 1000 belongs to a concrete
run of generate_questions and passes the Validator. -/
theorem C2_witness : filter_questions (fallback_question 1000) = true :=
  C2_returned_questions_pass_validator rng0 [] [] "" false (fallback_question 1000) (by decide)

/-- C3: generate_questions always returns a non-empty sequence, and when
synthesis followed by filtering accepts zero questions the returned
sequence is exactly one hardcoded fallback Question with the fixed text
and the options Interesting, Boring, Confusing. -/
theorem C3_nonempty_and_fallback_singleton (rng : Rng) (entities sentences : List String)
    (content : String) (from_url : Bool) :
    generate_questions rng entities sentences content from_url ≠ [] ∧
    (accepted_questions rng entities sentences content from_url = [] →
      ∃ qid, generate_questions rng entities sentences content from_url =
        [⟨qid, "What is your overall impression of this content?",
          ["Interesting", "Boring", "Confusing"]⟩]) := by
  constructor
  · unfold generate_questions
    split
    · simp
    · case _ h =>
      intro hnil
      rw [hnil] at h
      simp at h
  · intro hacc
    unfold generate_questions
    rw [hacc]
    simp only [List.isEmpty_nil, if_true]
    exact ⟨_, rfl⟩

/-- Witness for C3: a concrete run whose three topics all contain the phrase
Terms and Conditions has every synthesized question rejected, and the
returned set is the singleton fallback Question. -/
theorem C3_witness :
    ∃ qid, generate_questions rng0
        ["Terms and Conditions A", "Terms and Conditions B", "Terms and Conditions C"]
        [] "x" true =
      [⟨qid, "What is your overall impression of this content?",
        ["Interesting", "Boring", "Confusing"]⟩] :=
  (C3_nonempty_and_fallback_singleton rng0
    ["Terms and Conditions A", "Terms and Conditions B", "Terms and Conditions C"]
    [] "x" true).2 (by decide)

/-- C4: filter_questions accepts a question record exactly when none of the
rejection conditions listed by the specification holds: empty text or empty
options, fewer than 2 options, text ending in a period or not ending in a
question mark, or text containing one of the four boilerplate phrases. -/
theorem C4_validator_matches_spec (q : Question) :
    filter_questions q = true ↔ is_valid_spec q := by
  unfold filter_questions is_valid_spec
  split_ifs with h1 h2 h3 h4 h5 <;>
    simp only [Bool.or_eq_true, beq_iff_eq, List.isEmpty_iff, Bool.not_eq_true',
      decide_eq_true_iff, Bool.not_eq_true, Bool.false_eq_true] at * <;>
    tauto

/-- C5 is refuted at a concrete input: the question text See our Privacy
Policy? ends in a question mark and carries two options, yet the Validator
rejects it, so ending in a question mark with at least 2 options does not
suffice for acceptance. -/
theorem C5_counterexample :
    pyEndsWith "See our Privacy Policy?" "?" = true ∧
    2 ≤ (["Yes", "No"] : List String).length ∧
    filter_questions ⟨1000, "See our Privacy Policy?", ["Yes", "No"]⟩ = false := by
  decide

/-- C5 (amended): filter_questions rejects every question whose text ends in
a period; it accepts every question whose text ends in a question mark and
has at least 2 options, provided the text contains none of the four
boilerplate phrases; and the two concrete examples of the claim hold. -/
theorem C5_punctuation_and_boilerplate (q : Question) :
    (pyEndsWith q.question "." = true → filter_questions q = false) ∧
    (pyEndsWith q.question "?" = true → 2 ≤ q.options.length →
      pyIn "Terms and Conditions" q.question = false →
      pyIn "Privacy Policy" q.question = false →
      pyIn "CA Notice" q.question = false →
      pyIn "see our" q.question = false →
      filter_questions q = true) ∧
    filter_questions ⟨1000, "Do you like this.", ["Yes", "No"]⟩ = false ∧
    filter_questions ⟨1000, "Do you like this?", ["Yes", "No"]⟩ = true := by
  refine ⟨?_, ?_, by decide, by decide⟩
  · intro hdot
    unfold filter_questions
    split_ifs with h1 h2 h3 <;> try rfl
    exfalso
    simp only [Bool.or_eq_true, Bool.not_eq_true'] at h3
    rw [hdot] at h3
    tauto
  · intro hq hlen hc1 hc2 hc3 hc4
    have hne := endsWith_qmark_ne_empty hq
    have hdot := endsWith_qmark_not_dot hq
    have hopt : q.options.isEmpty = false := by
      cases ho : q.options with
      | nil => rw [ho] at hlen; simp at hlen
      | cons a l => rfl
    unfold filter_questions
    rw [hne, hopt, hdot, hq, hc1, hc2, hc3, hc4]
    simp
    omega

/-- Witness for C5: a concrete question ending in a question mark, with two
options and no boilerplate phrase, is accepted by the Validator. -/
theorem C5_witness : filter_questions ⟨7, "Is this fine?", ["Yes", "No"]⟩ = true :=
  (C5_punctuation_and_boilerplate ⟨7, "Is this fine?", ["Yes", "No"]⟩).2.1
    (by decide) (by decide) (by decide) (by decide) (by decide) (by decide)

/-- C6 is refuted at a concrete input: random.randint(1000, 9999) includes
its upper end, so when the id draw lands on it the returned fallback
Question carries id 9999, outside the claimed half-open range. -/
theorem C6_counterexample :
    (generate_questions rngTopId [] [] "" false).map Question.questionId = [9999] ∧
    ¬(9999 < 9999) := by
  decide

/-- C6 (amended): every Question produced by any template and the hardcoded
fallback Question carries an id in the closed range from 1000 to 9999
inclusive, for every extraction result and randomness. -/
theorem C6_ids_in_inclusive_range (rng : Rng) (entities sentences : List String)
    (content : String) (from_url : Bool) :
    (generate_questions rng entities sentences content from_url).all
      (fun q => 1000 ≤ q.questionId && q.questionId ≤ 9999) = true := by
  simp only [List.all_eq_true]
  intro q hq
  rcases mem_generate_questions hq with ⟨j, t, hq'⟩ | hq'
  · subst hq'
    have hb := pyRandint_bounds (rng.idSeed j)
    simp only [synthOne, templateAt_qid, Bool.and_eq_true, decide_eq_true_iff]
    omega
  · subst hq'
    have hb := pyRandint_bounds (rng.idSeed (topicsPool entities sentences content).length)
    simp only [fallback_question, Bool.and_eq_true, decide_eq_true_iff]
    omega

/-- C7: when the deduplicated raw topic set has fewer than 3 members,
exactly the 2 phrases of categorize_fallback are appended to the topic
pool; categorize_fallback selects them by case-insensitive containment with
precedence event, then product, then technology, and returns the generic
pair when no keyword matches; a text consisting of the word technology
yields the technology phrases. -/
theorem C7_fallback_topics_appended (entities sentences : List String) (content : String)
    (h : ((entities ++ sentences.take 10).dedup).length < 3) :
    topicsPool entities sentences content =
      (entities ++ sentences.take 10).dedup ++ categorize_fallback content ∧
    (categorize_fallback content).length = 2 ∧
    (pyIn "event" (pyLower content) = true →
      categorize_fallback content =
        ["key facts about this event", "impacts of this event on the industry"]) ∧
    (pyIn "event" (pyLower content) = false → pyIn "product" (pyLower content) = true →
      categorize_fallback content = ["product benefits", "product challenges"]) ∧
    (pyIn "event" (pyLower content) = false → pyIn "product" (pyLower content) = false →
      pyIn "technology" (pyLower content) = true →
      categorize_fallback content =
        ["future trends in technology", "challenges in adopting new technologies"]) ∧
    (pyIn "event" (pyLower content) = false → pyIn "product" (pyLower content) = false →
      pyIn "technology" (pyLower content) = false →
      categorize_fallback content = ["general knowledge", "specific details"]) ∧
    categorize_fallback "technology" =
      ["future trends in technology", "challenges in adopting new technologies"] := by
  refine ⟨by simp [topicsPool, h], ?_, ?_, ?_, ?_, ?_, by decide⟩
  · unfold categorize_fallback
    split_ifs <;> rfl
  · intro h1
    simp [categorize_fallback, h1]
  · intro h1 h2
    simp [categorize_fallback, h1, h2]
  · intro h1 h2 h3
    simp [categorize_fallback, h1, h2, h3]
  · intro h1 h2 h3
    simp [categorize_fallback, h1, h2, h3]

/-- Witness for C7: with no entities and no sentences the raw topic set is
empty, so the pool is exactly the appended fallback phrases for the content
technology. -/
theorem C7_witness :
    topicsPool [] [] "technology" =
      (([] : List String) ++ (([] : List String).take 10)).dedup ++
        categorize_fallback "technology" :=
  (C7_fallback_topics_appended [] [] "technology" (by decide)).1

/-- C8: for the challenges category the option set is selected by
case-insensitive containment on the topic with precedence technology, then
event, then product, with a generic set otherwise, and the concrete topic
New Technology Trends yields the technology-specific set. -/
theorem C8_challenges_options_by_keyword (topic : String) :
    (pyIn "technology" (pyLower topic) = true →
      generate_dynamic_options topic "challenges" =
        ["High cost", "Implementation difficulties", "Resistance to change"]) ∧
    (pyIn "technology" (pyLower topic) = false → pyIn "event" (pyLower topic) = true →
      generate_dynamic_options topic "challenges" =
        ["Unexpected consequences", "Lack of preparation", "Public backlash"]) ∧
    (pyIn "technology" (pyLower topic) = false → pyIn "event" (pyLower topic) = false →
      pyIn "product" (pyLower topic) = true →
      generate_dynamic_options topic "challenges" =
        ["Supply chain issues", "Quality control", "Market competition"]) ∧
    (pyIn "technology" (pyLower topic) = false → pyIn "event" (pyLower topic) = false →
      pyIn "product" (pyLower topic) = false →
      generate_dynamic_options topic "challenges" =
        ["Time constraints", "Resource limitations", "Knowledge gaps"]) ∧
    generate_dynamic_options "New Technology Trends" "challenges" =
      ["High cost", "Implementation difficulties", "Resistance to change"] := by
  refine ⟨?_, ?_, ?_, ?_, by decide⟩
  · intro h1
    simp [generate_dynamic_options, h1]
  · intro h1 h2
    simp [generate_dynamic_options, h1, h2]
  · intro h1 h2 h3
    simp [generate_dynamic_options, h1, h2, h3]
  · intro h1 h2 h3
    simp [generate_dynamic_options, h1, h2, h3]

/-- Witness for C8: a concrete topic containing the keyword technology
receives the technology-specific challenges options. -/
theorem C8_witness :
    generate_dynamic_options "technology adoption" "challenges" =
      ["High cost", "Implementation difficulties", "Resistance to change"] :=
  (C8_challenges_options_by_keyword "technology adoption").1 (by decide)

/-- C9: for empty input text, modelled by empty entity and sentence lists,
the fallback path triggers with the 2 generic topics as the pool, and
generate_questions returns exactly 2 questions for every randomness, which
settles the claimed disjunction by its first branch. -/
theorem C9_empty_input_yields_two_questions :
    topicsPool [] [] "" = ["general knowledge", "specific details"] ∧
    ∀ rng : Rng, (generate_questions rng [] [] "" true).length = 2 := by
  refine ⟨by decide, ?_⟩
  intro rng
  have hpool : topicsPool [] [] "" = ["general knowledge", "specific details"] := by decide
  have hlenP : (fisherYates rng.shuffleSeed (topicsPool [] [] "")).length = 2 := by
    rw [length_fisherYates, hpool]
    rfl
  have hall : ∀ t ∈ fisherYates rng.shuffleSeed (topicsPool [] [] ""), ∀ j,
      filter_questions (synthOne rng j t) = true := by
    intro t ht j
    have htmem : t ∈ topicsPool [] [] "" := mem_of_mem_fisherYates ht
    rw [hpool] at htmem
    have h7 : rng.choiceSeed j % 7 < 7 := Nat.mod_lt _ (by omega)
    unfold synthOne
    simp only [List.mem_cons, List.not_mem_nil, or_false] at htmem
    rcases htmem with rfl | rfl
    · interval_cases (rng.choiceSeed j % 7) <;> rfl
    · interval_cases (rng.choiceSeed j % 7) <;> rfl
  have hlen : (accepted_questions rng [] [] "" true).length = 2 := by
    show (synthLoop rng 0 (fisherYates rng.shuffleSeed (topicsPool [] [] ""))).length = 2
    rw [length_synthLoop_of_all_pass hall 0, hlenP]
  have hne : (accepted_questions rng [] [] "" true).isEmpty = false := by
    cases hq : accepted_questions rng [] [] "" true with
    | nil => rw [hq] at hlen; simp at hlen
    | cons a l => rfl
  unfold generate_questions
  rw [hne]
  simpa using hlen

/-- C10: with from_url set to false the synthesis loop is skipped, no
question is synthesized from the extracted topics, and generate_questions
returns exactly the singleton hardcoded fallback Question, regardless of
the extraction results. -/
theorem C10_from_url_false_fallback_only (rng : Rng) (entities sentences : List String)
    (content : String) :
    accepted_questions rng entities sentences content false = [] ∧
    ∃ qid, generate_questions rng entities sentences content false =
      [⟨qid, "What is your overall impression of this content?",
        ["Interesting", "Boring", "Confusing"]⟩] :=
  ⟨rfl, ⟨_, rfl⟩⟩
